import Mathlib

/-!
Verification development for the machine reconciliation engine
(cluster-api machine controller). The controller implementation itself
(machine_controller_phases.go / machine_controller.go) is not part of the
source snapshot — only its tests are — so the operations below are
modelled from the specification (sections 4.1–4.5, 7, 8), with the
behaviour the test file pins down (error vs. success signalling) kept
faithful to the tests of the repository.

Conventions of the embedding:
  * Go `*string` / optional fields become `Option String`.
  * A Go `error` return is an `Outcome`: `ok` is a nil error,
    `requeueAfter` is the non-nil requeue-after error the engine turns
    into a bounded requeue, `error` is any other non-nil error.
  * The object store, as far as a single reconciliation pass observes
    it, is the optional provider record the fetch returns.
-/

namespace ClusterAPI

/-- Lifecycle phase labels of a machine (spec section 4.1 / glossary). -/
inductive MachinePhase where
  | pending
  | provisioning
  | provisioned
  | running
  | deleting
  | failed
deriving DecidableEq, Repr

/-- One entry of the addresses list of a machine status: \x7btype, address\x7d. -/
structure MachineAddress where
  type : String
  address : String
deriving DecidableEq, Repr

/-- Mutable status block of a machine (spec section 3, data model).
The node reference is kept as the optional name of the node. -/
structure MachineStatus where
  bootstrapReady : Bool
  infrastructureReady : Bool
  providerID : Option String
  addresses : List MachineAddress
  nodeRef : Option String
  errorReason : Option String
  errorMessage : Option String
deriving DecidableEq, Repr

/-- The central machine entity (spec section 3): deletion marker,
the inline bootstrap data payload of the spec block, the finalizer
list, and the status block. -/
structure Machine where
  hasDeletionTimestamp : Bool
  bootstrapData : Option String
  finalizers : List String
  status : MachineStatus
deriving DecidableEq, Repr

/-- An untyped provider record as the core reads it (spec section 3):
status.ready, status.bootstrapData for bootstrap providers,
spec.providerID and status.addresses for infrastructure providers. -/
structure ProviderRecord where
  ready : Bool
  bootstrapData : Option String
  providerID : Option String
  addresses : Option (List MachineAddress)
deriving DecidableEq, Repr

/-- Result of one reconcile step, standing for the Go error value:
`ok` is a nil error; `requeueAfter` is the dedicated requeue-after
error (a non-nil error that the orchestrator converts into a bounded
requeue, spec sections 4.2 and 4.5); `error` is any other non-nil
error (InvalidState, Fatal, transient). -/
inductive Outcome where
  | ok
  | requeueAfter
  | error
deriving DecidableEq, Repr

/-- Whether the outcome is a non-nil Go error value. The requeue-after
signal is delivered as an error value, so it counts. -/
def Outcome.isErr : Outcome → Bool
  | .ok => false
  | .requeueAfter => true
  | .error => true

/-- Modelled from the spec: `computePhase` (section 4.1, Phase Engine;
the Go source file machine_controller_phases.go is absent from the
snapshot). Deterministic, total function of the status fields and the
deletion marker, by the stated precedence: deletion timestamp, then a
recorded error reason, then the readiness ladder. -/
def computePhase (s : MachineStatus) (hasDeletionTimestamp : Bool) : MachinePhase :=
  if hasDeletionTimestamp then .deleting
  else if s.errorReason.isSome then .failed
  else if !s.bootstrapReady then .pending
  else if !s.infrastructureReady then .provisioning
  else if s.nodeRef.isNone then .provisioned
  else .running

/-- Modelled from the spec: `reconcileBootstrap` (section 4.2, External
Reference Reconciler, Bootstrap branch; the Go source is absent from
the snapshot). The fetched provider record is passed in as `provider`
(`none` when the store reports not-found). Not-found yields the
requeue-after signal with no mutation. When the machine already holds
a bootstrap payload it is never overwritten: the pass succeeds and
keeps bootstrapReady true (the behaviour the tests pin down, which the
spec records as the never-reset policy). A present provider that is
not ready yields the requeue-after signal; a ready provider without
data is the InvalidState error with no mutation; a ready provider with
data has the data copied once and bootstrapReady set. -/
def reconcileBootstrap (provider : Option ProviderRecord) (m : Machine) :
    Machine × Outcome :=
  match provider with
  | none => (m, .requeueAfter)
  | some p =>
    if m.bootstrapData.isSome then
      ({ m with status := { m.status with bootstrapReady := true } }, .ok)
    else if !p.ready then
      (m, .requeueAfter)
    else
      match p.bootstrapData with
      | none => (m, .error)
      | some d =>
        ({ m with
            bootstrapData := some d,
            status := { m.status with bootstrapReady := true } }, .ok)

/-- Modelled from the spec: `reconcileInfrastructure` (section 4.2,
Infrastructure branch and the fatal edge case; the Go source is absent
from the snapshot). Not-found while the machine had not yet recorded
readiness is the bounded requeue signal. Not-found after the machine
recorded infrastructureReady = true is the fatal classification: the
error reason and message are recorded and an error is returned, and
readiness is not reset. A present provider that is not ready yields
the requeue-after signal; a ready provider has providerID and the
addresses list (defaulting to empty) copied and infrastructureReady
set. -/
def reconcileInfrastructure (provider : Option ProviderRecord) (m : Machine) :
    Machine × Outcome :=
  match provider with
  | none =>
    if m.status.infrastructureReady then
      ({ m with status := { m.status with
          errorReason := some "InvalidConfiguration",
          errorMessage := some "infrastructure record vanished under the machine" } },
        .error)
    else
      (m, .requeueAfter)
  | some p =>
    if !p.ready then
      (m, .requeueAfter)
    else
      ({ m with status := { m.status with
          infrastructureReady := true,
          providerID := p.providerID,
          addresses := p.addresses.getD [] } }, .ok)

/-- Whether the outcome is the requeue-after signal. -/
def Outcome.isRequeue : Outcome → Bool
  | .requeueAfter => true
  | _ => false

/-- Whether the outcome is a hard (non-requeue) error. -/
def Outcome.isHard : Outcome → Bool
  | .error => true
  | _ => false

/-- Whether a phase still has an outstanding condition the engine
waits on (spec section 4.5: only a Running machine with nothing
outstanding needs no requeue; a Failed machine surfaces an error
instead, and Deleting is handled by the deleting path). -/
def phaseWaiting : MachinePhase → Bool
  | .pending => true
  | .provisioning => true
  | .provisioned => true
  | _ => false

/-- Modelled from the spec: the normal-path orchestration of one
reconciliation pass (section 4.5; the Go source is absent from the
snapshot): bootstrap first, then infrastructure, then the phase is
recomputed. Returns (machine, phase, requeueNeeded, isError). A
requeue is requested for any requeue-after signal and, per the requeue
policy and Scenario C, while the machine has not reached the Running
phase (the watch subscriptions alone drive a Running machine). An
error is surfaced for the InvalidState / Fatal outcomes. -/
def reconcileNormal (bs infra : Option ProviderRecord) (m : Machine) :
    Machine × MachinePhase × Bool × Bool :=
  let r1 := reconcileBootstrap bs m
  let r2 := reconcileInfrastructure infra r1.1
  let phase := computePhase r2.1.status r2.1.hasDeletionTimestamp
  let requeue := r1.2.isRequeue || r2.2.isRequeue || phaseWaiting phase
  let isError := r1.2.isHard || r2.2.isHard
  (r2.1, phase, requeue, isError)

/-- Which provider records of a machine being deleted still exist in
the object store. -/
structure ExternalStore where
  bootstrapExists : Bool
  infraExists : Bool
deriving DecidableEq, Repr

/-- Modelled from the spec: `reconcileDeleteExternal` (section 4.4,
Deletion Orchestrator; the Go source is absent from the snapshot).
Returns (store after the pass, allExternalRefsGone, error). Every
still-existing provider record gets a delete issued and the pass
reports false; deleting a missing or never-created record is not an
error, and when none of the references exist the pass reports true. -/
def reconcileDeleteExternal (s : ExternalStore) :
    ExternalStore × Bool × Option String :=
  if s.bootstrapExists || s.infraExists then
    ({ bootstrapExists := false, infraExists := false }, false, none)
  else
    (s, true, none)

/-- The finalizer token owned by this engine. -/
def MachineFinalizer : String := "machine.cluster.x-k8s.io"

/-- Modelled from the spec: the finalizer-ensure step of the
non-deleting path (section 4.5; the Go source is absent from the
snapshot): when the list lacks the engine token it is appended,
otherwise the list is untouched. -/
def ensureFinalizer (fins : List String) : List String :=
  if MachineFinalizer ∈ fins then fins else fins ++ [MachineFinalizer]

/-- Modelled from the spec: removal of only the engine token from a
finalizer list (section 4.4: list membership removal, not list
replacement). -/
def removeFinalizer (fins : List String) : List String :=
  fins.filter (fun f => f != MachineFinalizer)

/-- Modelled from the spec: the deleting path of one pass (sections
4.4 and 4.5; the Go source is absent from the snapshot): run the
deletion orchestrator; only when it reports that all external
references are gone is the engine token stripped, otherwise a short
requeue is requested. Returns (machine, store, requeueNeeded). -/
def handleDeletion (m : Machine) (s : ExternalStore) :
    Machine × ExternalStore × Bool :=
  let r := reconcileDeleteExternal s
  if r.2.1 then
    ({ m with finalizers := removeFinalizer m.finalizers }, r.1, false)
  else
    (m, r.1, true)

/-- Modelled from the spec: `ensureWatch` (section 4.3, Watch
Registry; the Go source is absent from the snapshot). The registry is
the set of kinds already watched; the atomic insert-if-absent
registers a kind only when it is absent. Concurrent callers are
modelled by an arbitrary sequence of these atomic operations. -/
def ensureWatch (kind : String) (watchers : List String) : List String :=
  if kind ∈ watchers then watchers else kind :: watchers

/-- A sequence of ensureWatch calls (any interleaving of the atomic
insert-if-absent operations of concurrent passes) run against a
registry state. -/
def runEnsureWatchCalls (calls : List String) (watchers : List String) : List String :=
  calls.foldl (fun w k => ensureWatch k w) watchers

/-! ### Concrete instances used by witnesses -/

/-- A concrete status block used by witnesses: nothing ready, no node
reference, no recorded error. -/
def statusEmpty : MachineStatus :=
  { bootstrapReady := false, infrastructureReady := false, providerID := none,
    addresses := [], nodeRef := none, errorReason := none, errorMessage := none }

/-- A concrete machine in the Running shape: both flags recorded, a
node reference present, bootstrap data delivered, not being deleted. -/
def machineRunningW : Machine :=
  { hasDeletionTimestamp := false,
    bootstrapData := some "#!/bin/bash ... data",
    finalizers := [MachineFinalizer],
    status := { bootstrapReady := true, infrastructureReady := true,
                providerID := some "test://id-1", addresses := [],
                nodeRef := some "machine-test-node", errorReason := none,
                errorMessage := none } }

/-- A concrete new machine: nothing recorded yet. -/
def machineNewW : Machine :=
  { hasDeletionTimestamp := false, bootstrapData := none,
    finalizers := [], status := statusEmpty }

/-- A concrete ready bootstrap provider record carrying data. -/
def bootstrapProviderReadyW : ProviderRecord :=
  { ready := true, bootstrapData := some "#!/bin/bash ... data",
    providerID := none, addresses := none }

/-- A concrete ready infrastructure provider record with two
addresses. -/
def infraProviderReadyW : ProviderRecord :=
  { ready := true, bootstrapData := none, providerID := some "test://id-1",
    addresses := some [MachineAddress.mk "InternalIP" "10.0.0.1",
      MachineAddress.mk "InternalIP" "10.0.0.2"] }

/-- A concrete provider record that is present but not ready. -/
def providerNotReadyW : ProviderRecord :=
  { ready := false, bootstrapData := some "#!/bin/bash ... data",
    providerID := none, addresses := none }

/-- A concrete ready bootstrap provider record with no data. -/
def bootstrapProviderNoDataW : ProviderRecord :=
  { ready := true, bootstrapData := none, providerID := none, addresses := none }

/-- A concrete ready bootstrap provider record whose data has changed
since the first copy. -/
def bootstrapProviderChangedW : ProviderRecord :=
  { ready := true, bootstrapData := some "#!/bin/bash ... data with change",
    providerID := none, addresses := none }

/-- A concrete store in which both provider records still exist. -/
def storeBothW : ExternalStore := { bootstrapExists := true, infraExists := true }

/-- A concrete store in which neither provider record exists. -/
def storeNoneW : ExternalStore := { bootstrapExists := false, infraExists := false }

/-- A concrete machine being deleted whose finalizer list holds the
engine token and a token of an unrelated actor. -/
def machineDeletingW : Machine :=
  { hasDeletionTimestamp := true,
    bootstrapData := some "data",
    finalizers := [MachineFinalizer, "foregroundDeletion"],
    status := statusEmpty }

/-! ### Claim theorems -/

/-- Claim C1: computePhase is a total function of the status fields
and the deletion marker obeying the stated precedence: Pending when
bootstrap is not ready, Provisioning when bootstrap is ready but
infrastructure is not, Provisioned when both are ready and no node
reference is set, Running when a node reference is present, and a set
deletion timestamp pre-empts all of these and yields Deleting
regardless of the readiness flags. -/
theorem computePhase_precedence (s : MachineStatus) :
    computePhase s true = .deleting ∧
    (s.errorReason = none →
      (s.bootstrapReady = false → computePhase s false = .pending) ∧
      (s.bootstrapReady = true → s.infrastructureReady = false →
        computePhase s false = .provisioning) ∧
      (s.bootstrapReady = true → s.infrastructureReady = true → s.nodeRef = none →
        computePhase s false = .provisioned) ∧
      (s.bootstrapReady = true → s.infrastructureReady = true → s.nodeRef.isSome →
        computePhase s false = .running)) := by
  refine ⟨rfl, fun he => ⟨?_, ?_, ?_, ?_⟩⟩
  · intro hb
    simp [computePhase, he, hb]
  · intro hb hi
    simp [computePhase, he, hb, hi]
  · intro hb hi hn
    simp [computePhase, he, hb, hi, hn]
  · intro hb hi hn
    simp [computePhase, he, hb, hi, Option.isNone_iff_eq_none]
    intro hcontra
    rw [hcontra] at hn
    simp at hn

/-- Witness for C1 at a concrete status: the empty status has no error
reason, is not bootstrap ready, and computes to Pending; with the
deletion marker it computes to Deleting. -/
theorem computePhase_precedence_witness :
    statusEmpty.errorReason = none ∧ statusEmpty.bootstrapReady = false ∧
    computePhase statusEmpty true = .deleting ∧
    computePhase statusEmpty false = .pending :=
  ⟨rfl, rfl, (computePhase_precedence statusEmpty).1,
    ((computePhase_precedence statusEmpty).2 rfl).1 rfl⟩

/-- Claim C2: for a machine that recorded infrastructureReady = true
and has a nodeRef, reconciling the infrastructure reference when the
provider record no longer exists returns an error, records non-empty
errorReason and errorMessage, does not reset infrastructureReady, and
the recomputed phase is Failed. -/
theorem reconcileInfrastructure_vanished (m : Machine)
    (hready : m.status.infrastructureReady = true)
    (hnode : (m.status.nodeRef).isSome = true)
    (hdel : m.hasDeletionTimestamp = false) :
    (reconcileInfrastructure none m).2 = .error ∧
    (∃ r, (reconcileInfrastructure none m).1.status.errorReason = some r ∧ r ≠ "") ∧
    (∃ e, (reconcileInfrastructure none m).1.status.errorMessage = some e ∧ e ≠ "") ∧
    (reconcileInfrastructure none m).1.status.infrastructureReady = true ∧
    computePhase (reconcileInfrastructure none m).1.status
      (reconcileInfrastructure none m).1.hasDeletionTimestamp = .failed := by
  have h0 := hnode
  refine ⟨?_, ?_, ?_, ?_, ?_⟩ <;>
    simp [reconcileInfrastructure, hready, hdel, computePhase]

/-- Witness for C2: a machine previously Running (both flags true,
node reference present, not deleting) hits the fatal path. -/
theorem reconcileInfrastructure_vanished_witness :
    (machineRunningW.status.infrastructureReady = true ∧
      (machineRunningW.status.nodeRef).isSome = true ∧
      machineRunningW.hasDeletionTimestamp = false) ∧
    ((reconcileInfrastructure none machineRunningW).2 = .error ∧
      (reconcileInfrastructure none machineRunningW).1.status.infrastructureReady = true) :=
  ⟨⟨by rfl, by rfl, by rfl⟩,
    ⟨(reconcileInfrastructure_vanished machineRunningW (by rfl) (by rfl) (by rfl)).1,
      (reconcileInfrastructure_vanished machineRunningW (by rfl) (by rfl) (by rfl)).2.2.2.1⟩⟩

/-- Claim C3: reconciling the bootstrap reference is idempotent with
respect to the delivered payload: once the bootstrap data of the
machine is populated, a further reconcile against any provider record
(even a ready one whose data has changed) leaves the data exactly as
first copied and succeeds, and the data is copied from the provider
only when the machine data is currently empty. -/
theorem reconcileBootstrap_idempotent (m : Machine) (p : ProviderRecord) (d : String)
    (hdata : m.bootstrapData = some d) :
    (reconcileBootstrap (some p) m).1.bootstrapData = some d ∧
    (reconcileBootstrap (some p) m).2 = .ok ∧
    (∀ m2 : Machine, m2.bootstrapData = none → p.ready = true →
      ∀ d2, p.bootstrapData = some d2 →
        (reconcileBootstrap (some p) m2).1.bootstrapData = some d2) := by
  refine ⟨?_, ?_, ?_⟩
  · simp [reconcileBootstrap, hdata]
  · simp [reconcileBootstrap, hdata]
  · intro m2 h2 hr d2 hd2
    simp [reconcileBootstrap, h2, hr, hd2]

/-- Witness for C3: the running machine already carries its first
payload; reconciling against a ready provider with changed data keeps
the payload as first copied. -/
theorem reconcileBootstrap_idempotent_witness :
    machineRunningW.bootstrapData = some "#!/bin/bash ... data" ∧
    (reconcileBootstrap (some bootstrapProviderChangedW) machineRunningW).1.bootstrapData
      = some "#!/bin/bash ... data" :=
  ⟨by rfl,
    (reconcileBootstrap_idempotent machineRunningW bootstrapProviderChangedW
      "#!/bin/bash ... data" (by rfl)).1⟩

/-- Claim C7: a bootstrap provider that reports ready with no
bootstrap data surfaces an error on this pass and mutates nothing:
the machine is returned unchanged, so bootstrapReady stays false and
the bootstrap data stays unset. -/
theorem reconcileBootstrap_invalidState (m : Machine) (p : ProviderRecord)
    (hready : p.ready = true) (hnodata : p.bootstrapData = none)
    (hmdata : m.bootstrapData = none) (hflag : m.status.bootstrapReady = false) :
    (reconcileBootstrap (some p) m).2 = .error ∧
    (reconcileBootstrap (some p) m).1 = m ∧
    (reconcileBootstrap (some p) m).1.status.bootstrapReady = false ∧
    (reconcileBootstrap (some p) m).1.bootstrapData = none := by
  have h : reconcileBootstrap (some p) m = (m, .error) := by
    simp [reconcileBootstrap, hready, hnodata, hmdata]
  rw [h]
  exact ⟨rfl, rfl, hflag, hmdata⟩

/-- Witness for C7: a new machine against the ready-but-dataless
provider. -/
theorem reconcileBootstrap_invalidState_witness :
    (bootstrapProviderNoDataW.ready = true ∧
      bootstrapProviderNoDataW.bootstrapData = none ∧
      machineNewW.bootstrapData = none ∧
      machineNewW.status.bootstrapReady = false) ∧
    (reconcileBootstrap (some bootstrapProviderNoDataW) machineNewW).2 = .error ∧
    (reconcileBootstrap (some bootstrapProviderNoDataW) machineNewW).1 = machineNewW :=
  ⟨⟨by rfl, by rfl, by rfl, by rfl⟩,
    (reconcileBootstrap_invalidState machineNewW bootstrapProviderNoDataW
      (by rfl) (by rfl) (by rfl) (by rfl)).1,
    (reconcileBootstrap_invalidState machineNewW bootstrapProviderNoDataW
      (by rfl) (by rfl) (by rfl) (by rfl)).2.1⟩

/-- Helper: the bootstrap step never lowers bootstrapReady. -/
theorem reconcileBootstrap_ready_mono (provider : Option ProviderRecord)
    (m : Machine) (h : m.status.bootstrapReady = true) :
    (reconcileBootstrap provider m).1.status.bootstrapReady = true := by
  unfold reconcileBootstrap
  cases provider with
  | none => exact h
  | some p =>
    dsimp only
    split
    · rfl
    · split
      · exact h
      · split
        · exact h
        · rfl

/-- Helper: the bootstrap step never touches infrastructureReady. -/
theorem reconcileBootstrap_infra_frame (provider : Option ProviderRecord)
    (m : Machine) :
    (reconcileBootstrap provider m).1.status.infrastructureReady
      = m.status.infrastructureReady := by
  unfold reconcileBootstrap
  cases provider with
  | none => rfl
  | some p =>
    dsimp only
    split
    · rfl
    · split
      · rfl
      · split <;> rfl

/-- Helper: the infrastructure step never lowers infrastructureReady. -/
theorem reconcileInfrastructure_ready_mono (provider : Option ProviderRecord)
    (m : Machine) (h : m.status.infrastructureReady = true) :
    (reconcileInfrastructure provider m).1.status.infrastructureReady = true := by
  unfold reconcileInfrastructure
  cases provider with
  | none =>
    dsimp only
    split
    · exact h
    · exact h
  | some p =>
    dsimp only
    split
    · exact h
    · rfl

/-- Helper: the infrastructure step never touches bootstrapReady. -/
theorem reconcileInfrastructure_bootstrap_frame (provider : Option ProviderRecord)
    (m : Machine) :
    (reconcileInfrastructure provider m).1.status.bootstrapReady
      = m.status.bootstrapReady := by
  unfold reconcileInfrastructure
  cases provider with
  | none =>
    dsimp only
    split <;> rfl
  | some p =>
    dsimp only
    split <;> rfl

/-- Claim C4: once bootstrapReady (or infrastructureReady) is true it
is never reset to false by a normal reconciliation pass; in
particular, reconciling the bootstrap reference of a machine with
bootstrapReady = true (its payload delivered) against a provider now
reporting ready = false succeeds and leaves bootstrapReady = true. -/
theorem ready_flags_never_reset (bs infra : Option ProviderRecord) (m : Machine) :
    (m.status.bootstrapReady = true →
      (reconcileNormal bs infra m).1.status.bootstrapReady = true) ∧
    (m.status.infrastructureReady = true →
      (reconcileNormal bs infra m).1.status.infrastructureReady = true) ∧
    (m.status.bootstrapReady = true → m.bootstrapData.isSome = true →
      ∀ p : ProviderRecord, p.ready = false →
        (reconcileBootstrap (some p) m).2 = .ok ∧
        (reconcileBootstrap (some p) m).1.status.bootstrapReady = true) := by
  refine ⟨?_, ?_, ?_⟩
  · intro h
    show (reconcileInfrastructure infra (reconcileBootstrap bs m).1).1.status.bootstrapReady = true
    rw [reconcileInfrastructure_bootstrap_frame]
    exact reconcileBootstrap_ready_mono bs m h
  · intro h
    show (reconcileInfrastructure infra (reconcileBootstrap bs m).1).1.status.infrastructureReady = true
    apply reconcileInfrastructure_ready_mono
    rw [reconcileBootstrap_infra_frame]
    exact h
  · intro _ hdata p _
    constructor
    · simp [reconcileBootstrap, hdata]
    · simp [reconcileBootstrap, hdata]

/-- Witness for C4: the running machine against the not-ready
provider: the pass succeeds and bootstrapReady stays true. -/
theorem ready_flags_never_reset_witness :
    (machineRunningW.status.bootstrapReady = true ∧
      machineRunningW.bootstrapData.isSome = true ∧
      providerNotReadyW.ready = false) ∧
    (reconcileBootstrap (some providerNotReadyW) machineRunningW).2 = .ok ∧
    (reconcileBootstrap (some providerNotReadyW) machineRunningW).1.status.bootstrapReady
      = true :=
  ⟨⟨by rfl, by rfl, by rfl⟩,
    ((ready_flags_never_reset none none machineRunningW).2.2 (by rfl) (by rfl)
      providerNotReadyW (by rfl)).1,
    ((ready_flags_never_reset none none machineRunningW).2.2 (by rfl) (by rfl)
      providerNotReadyW (by rfl)).2⟩

/-- Claim C5: the deletion orchestrator reports true exactly when
neither provider record exists; whenever at least one still exists it
reports false with no error and issues deletes for the existing ones;
a missing record is never an error. -/
theorem reconcileDeleteExternal_contract (s : ExternalStore) :
    ((reconcileDeleteExternal s).2.1 = true ↔
      (s.bootstrapExists = false ∧ s.infraExists = false)) ∧
    (reconcileDeleteExternal s).2.2 = none ∧
    ((s.bootstrapExists = true ∨ s.infraExists = true) →
      (reconcileDeleteExternal s).2.1 = false ∧
      (reconcileDeleteExternal s).1.bootstrapExists = false ∧
      (reconcileDeleteExternal s).1.infraExists = false) := by
  rcases s with ⟨b, i⟩
  cases b <;> cases i <;> simp [reconcileDeleteExternal]

/-- Witness for C5: with both records present the pass reports false;
with neither present it reports true. -/
theorem reconcileDeleteExternal_contract_witness :
    (storeBothW.bootstrapExists = true ∨ storeBothW.infraExists = true) ∧
    (reconcileDeleteExternal storeBothW).2.1 = false ∧
    (reconcileDeleteExternal storeNoneW).2.1 = true :=
  ⟨Or.inl (by rfl),
    ((reconcileDeleteExternal_contract storeBothW).2.2 (Or.inl (by rfl))).1,
    (reconcileDeleteExternal_contract storeNoneW).1.mpr ⟨by rfl, by rfl⟩⟩

/-- Claim C6: finalizer handling touches only the engine token: on the
non-deleting path a list lacking the token gets it appended with every
pre-existing finalizer preserved in place, and on the deleting path,
once all external references are gone, exactly the engine token is
removed (every occurrence of it and nothing else) while tokens of
unrelated actors keep their count. -/
theorem finalizer_frame (fins : List String) (m : Machine) (s : ExternalStore)
    (hbs : s.bootstrapExists = false) (hinf : s.infraExists = false) :
    (MachineFinalizer ∉ fins → ensureFinalizer fins = fins ++ [MachineFinalizer]) ∧
    (handleDeletion m s).1.finalizers
      = m.finalizers.filter (fun f => f != MachineFinalizer) ∧
    MachineFinalizer ∉ (handleDeletion m s).1.finalizers ∧
    (∀ f, f ≠ MachineFinalizer →
      List.count f (handleDeletion m s).1.finalizers = List.count f m.finalizers) := by
  have hgone : (handleDeletion m s).1.finalizers
      = m.finalizers.filter (fun f => f != MachineFinalizer) := by
    simp [handleDeletion, reconcileDeleteExternal, hbs, hinf, removeFinalizer]
  refine ⟨?_, hgone, ?_, ?_⟩
  · intro h
    simp [ensureFinalizer, h]
  · rw [hgone]
    simp [List.mem_filter]
  · intro f hf
    rw [hgone]
    apply List.count_filter
    simp [hf]

/-- Witness for C6: a deleting machine whose list holds the engine
token and an unrelated token, against a store with no records left:
the unrelated token stays, and appending works on a list lacking the
engine token. -/
theorem finalizer_frame_witness :
    (storeNoneW.bootstrapExists = false ∧ storeNoneW.infraExists = false ∧
      MachineFinalizer ∉ ["some-other-finalizer"]) ∧
    ensureFinalizer ["some-other-finalizer"]
      = ["some-other-finalizer", MachineFinalizer] ∧
    (handleDeletion machineDeletingW storeNoneW).1.finalizers = ["foregroundDeletion"] := by
  have h := finalizer_frame ["some-other-finalizer"] machineDeletingW storeNoneW
    (by rfl) (by rfl)
  refine ⟨⟨by rfl, by rfl, by decide⟩, ?_, ?_⟩
  · exact h.1 (by decide)
  · rw [h.2.1]
    rfl

/-- Claim C8: both providers ready with a two-entry infrastructure
addresses list and no node reference: the pass yields phase
Provisioned, exactly two addresses on the machine status, a requeue is
still requested, and no error. -/
theorem reconcileNormal_provisioned (m : Machine) (bs infra : ProviderRecord)
    (d : String) (a1 a2 : MachineAddress)
    (hbs : bs.ready = true) (hbsd : bs.bootstrapData = some d)
    (hinfra : infra.ready = true) (haddr : infra.addresses = some [a1, a2])
    (hnode : m.status.nodeRef = none) (hdel : m.hasDeletionTimestamp = false)
    (herr : m.status.errorReason = none) :
    (reconcileNormal (some bs) (some infra) m).2.1 = .provisioned ∧
    (reconcileNormal (some bs) (some infra) m).1.status.addresses.length = 2 ∧
    (reconcileNormal (some bs) (some infra) m).2.2.1 = true ∧
    (reconcileNormal (some bs) (some infra) m).2.2.2 = false := by
  cases hd : m.bootstrapData with
  | none =>
    refine ⟨?_, ?_, ?_, ?_⟩ <;>
      simp [reconcileNormal, reconcileBootstrap, reconcileInfrastructure,
        computePhase, phaseWaiting, Outcome.isRequeue, Outcome.isHard,
        hbs, hbsd, hinfra, haddr, hnode, hdel, herr, hd]
  | some d0 =>
    refine ⟨?_, ?_, ?_, ?_⟩ <;>
      simp [reconcileNormal, reconcileBootstrap, reconcileInfrastructure,
        computePhase, phaseWaiting, Outcome.isRequeue, Outcome.isHard,
        hbs, hbsd, hinfra, haddr, hnode, hdel, herr, hd]

/-- Witness for C8: the new machine against the ready bootstrap
provider and the ready infrastructure provider with two addresses. -/
theorem reconcileNormal_provisioned_witness :
    (bootstrapProviderReadyW.ready = true ∧ infraProviderReadyW.ready = true ∧
      machineNewW.status.nodeRef = none) ∧
    (reconcileNormal (some bootstrapProviderReadyW) (some infraProviderReadyW)
      machineNewW).2.1 = .provisioned ∧
    (reconcileNormal (some bootstrapProviderReadyW) (some infraProviderReadyW)
      machineNewW).1.status.addresses.length = 2 ∧
    (reconcileNormal (some bootstrapProviderReadyW) (some infraProviderReadyW)
      machineNewW).2.2.1 = true :=
  ⟨⟨by rfl, by rfl, by rfl⟩,
    (reconcileNormal_provisioned machineNewW bootstrapProviderReadyW infraProviderReadyW
      "#!/bin/bash ... data" (MachineAddress.mk "InternalIP" "10.0.0.1")
      (MachineAddress.mk "InternalIP" "10.0.0.2")
      (by rfl) (by rfl) (by rfl) (by rfl) (by rfl) (by rfl) (by rfl)).1,
    (reconcileNormal_provisioned machineNewW bootstrapProviderReadyW infraProviderReadyW
      "#!/bin/bash ... data" (MachineAddress.mk "InternalIP" "10.0.0.1")
      (MachineAddress.mk "InternalIP" "10.0.0.2")
      (by rfl) (by rfl) (by rfl) (by rfl) (by rfl) (by rfl) (by rfl)).2.1,
    (reconcileNormal_provisioned machineNewW bootstrapProviderReadyW infraProviderReadyW
      "#!/bin/bash ... data" (MachineAddress.mk "InternalIP" "10.0.0.1")
      (MachineAddress.mk "InternalIP" "10.0.0.2")
      (by rfl) (by rfl) (by rfl) (by rfl) (by rfl) (by rfl) (by rfl)).2.2.1⟩

/-- Helper: one atomic insert-if-absent keeps the registration count
of a kind at most one. -/
theorem count_ensureWatch_le (k kind : String) (w : List String)
    (h : List.count kind w ≤ 1) : List.count kind (ensureWatch k w) ≤ 1 := by
  unfold ensureWatch
  split
  · exact h
  · rename_i hk
    rcases eq_or_ne kind k with rfl | hne
    · have h0 : List.count kind w = 0 := List.count_eq_zero.mpr hk
      simp [List.count_cons_self, h0]
    · simpa [List.count_cons_of_ne hne] using h

/-- Helper: a registered kind stays registered across any further
atomic insert-if-absent. -/
theorem mem_ensureWatch (k kind : String) (w : List String) (h : kind ∈ w) :
    kind ∈ ensureWatch k w := by
  unfold ensureWatch
  split
  · exact h
  · exact List.mem_cons_of_mem _ h

/-- Helper: the inserted kind is registered afterwards. -/
theorem self_mem_ensureWatch (k : String) (w : List String) : k ∈ ensureWatch k w := by
  unfold ensureWatch
  split
  · assumption
  · exact List.mem_cons_self _ _

/-- Helper: a whole sequence of atomic insert-if-absent operations
keeps the registration count of a kind at most one. -/
theorem count_runEnsureWatchCalls_le (calls : List String) (kind : String)
    (w : List String) (h : List.count kind w ≤ 1) :
    List.count kind (runEnsureWatchCalls calls w) ≤ 1 := by
  induction calls generalizing w with
  | nil => exact h
  | cons c cs ih =>
    show List.count kind (runEnsureWatchCalls cs (ensureWatch c w)) ≤ 1
    exact ih _ (count_ensureWatch_le c kind w h)

/-- Helper: a kind called somewhere in the sequence, or registered
already, is registered afterwards. -/
theorem mem_runEnsureWatchCalls (calls : List String) (kind : String)
    (w : List String) (h : kind ∈ calls ∨ kind ∈ w) :
    kind ∈ runEnsureWatchCalls calls w := by
  induction calls generalizing w with
  | nil =>
    rcases h with h | h
    · cases h
    · exact h
  | cons c cs ih =>
    show kind ∈ runEnsureWatchCalls cs (ensureWatch c w)
    rcases h with h | h
    · rcases List.mem_cons.mp h with rfl | h2
      · exact ih _ (Or.inr (self_mem_ensureWatch _ _))
      · exact ih _ (Or.inl h2)
    · exact ih _ (Or.inr (mem_ensureWatch _ _ _ h))

/-- Claim C9: any interleaving of ensureWatch calls from concurrent
passes (a sequence of the atomic insert-if-absent operations) that
mentions a kind leaves exactly one registration for that kind, and a
caller that observes an existing registration is a no-op. -/
theorem ensureWatch_at_most_once (calls : List String) (kind : String)
    (hmem : kind ∈ calls) :
    List.count kind (runEnsureWatchCalls calls []) = 1 ∧
    (∀ w, kind ∈ w → ensureWatch kind w = w) := by
  constructor
  · have hle := count_runEnsureWatchCalls_le calls kind [] (by simp)
    have hpos : 0 < List.count kind (runEnsureWatchCalls calls []) :=
      List.count_pos_iff.mpr (mem_runEnsureWatchCalls calls kind [] (Or.inl hmem))
    omega
  · intro w hw
    simp [ensureWatch, hw]

/-- Witness for C9: five racing calls for the same kind (and one other
kind) leave exactly one registration for it. -/
theorem ensureWatch_at_most_once_witness :
    "X" ∈ ["X", "X", "Y", "X", "X"] ∧
    List.count "X" (runEnsureWatchCalls ["X", "X", "Y", "X", "X"] []) = 1 :=
  ⟨by decide,
    (ensureWatch_at_most_once ["X", "X", "Y", "X", "X"] "X" (by decide)).1⟩

/-- Claim C10: a present-but-not-ready bootstrap provider is handled
asymmetrically in the prior machine state: a machine with nothing
recorded yet gets a non-nil error (the requeue-after error value) and
keeps bootstrapReady false, while a machine that already recorded
bootstrapReady = true (its payload delivered) gets success with its
status unchanged. -/
theorem reconcileBootstrap_notReady_asym (m1 m2 : Machine) (p : ProviderRecord)
    (hp : p.ready = false)
    (h1d : m1.bootstrapData = none) (h1r : m1.status.bootstrapReady = false)
    (h2r : m2.status.bootstrapReady = true) (h2d : m2.bootstrapData.isSome = true) :
    (reconcileBootstrap (some p) m1).2 = .requeueAfter ∧
    (reconcileBootstrap (some p) m1).2.isErr = true ∧
    (reconcileBootstrap (some p) m1).1.status.bootstrapReady = false ∧
    (reconcileBootstrap (some p) m2).2 = .ok ∧
    (reconcileBootstrap (some p) m2).1.status = m2.status := by
  obtain ⟨hdel2, bd2, fins2, st2⟩ := m2
  obtain ⟨br, ir, pid, addr, nr, er, em⟩ := st2
  have hbr : br = true := h2r
  subst hbr
  have e1 : reconcileBootstrap (some p) m1 = (m1, .requeueAfter) := by
    simp [reconcileBootstrap, h1d, hp]
  refine ⟨?_, ?_, ?_, ?_, ?_⟩
  · rw [e1]
  · rw [e1]; rfl
  · rw [e1]; exact h1r
  · simp [reconcileBootstrap, h2d]
  · simp [reconcileBootstrap, h2d]

/-- Witness for C10: the new machine errs while the running machine
succeeds unchanged against the same not-ready provider. -/
theorem reconcileBootstrap_notReady_asym_witness :
    (providerNotReadyW.ready = false ∧ machineNewW.bootstrapData = none ∧
      machineNewW.status.bootstrapReady = false ∧
      machineRunningW.status.bootstrapReady = true ∧
      machineRunningW.bootstrapData.isSome = true) ∧
    (reconcileBootstrap (some providerNotReadyW) machineNewW).2.isErr = true ∧
    (reconcileBootstrap (some providerNotReadyW) machineRunningW).2 = .ok ∧
    (reconcileBootstrap (some providerNotReadyW) machineRunningW).1.status
      = machineRunningW.status :=
  ⟨⟨by rfl, by rfl, by rfl, by rfl, by rfl⟩,
    (reconcileBootstrap_notReady_asym machineNewW machineRunningW providerNotReadyW
      (by rfl) (by rfl) (by rfl) (by rfl) (by rfl)).2.1,
    (reconcileBootstrap_notReady_asym machineNewW machineRunningW providerNotReadyW
      (by rfl) (by rfl) (by rfl) (by rfl) (by rfl)).2.2.2.1,
    (reconcileBootstrap_notReady_asym machineNewW machineRunningW providerNotReadyW
      (by rfl) (by rfl) (by rfl) (by rfl) (by rfl)).2.2.2.2⟩

end ClusterAPI
